import Mathlib

/-!
# Verification of the order aggregation and persistence model of `ordering_app.py`

Shallow embedding of the core of `src/ordering_app.py` (a Streamlit ordering
app).  Python floats are modelled as exact rationals (`ℚ`); every price in the
hard-coded menu is an exact decimal with at most one fractional digit, so no
binary-float rounding noise is observable at the two-decimal granularity the
program works with.  The CSV backing store is modelled as a `Store` state:
`missing` (the file does not exist), `corrupt` (the file exists but
`pd.read_csv` raises), or `file rows` (the file parses to the given rows).
-/

namespace OrderingApp

/-- Model of Python `round(x, 2)` on exact values: round to the nearest
multiple of `1/100`, ties to the even cent (the default rounding of Python). -/
def pyRound2 (x : ℚ) : ℚ :=
  let r := 100 * x
  let n : ℤ := if r - ⌊r⌋ = 1 / 2 then (if ⌊r⌋ % 2 = 0 then ⌊r⌋ else ⌊r⌋ + 1) else ⌊r + 1 / 2⌋
  (n : ℚ) / 100

/-- Modelled from the spec: "standard half-up rounding" to 2 decimal places,
used to compare the arithmetic of the code against the wording of the spec. -/
def roundHalfUp2 (x : ℚ) : ℚ :=
  ((⌊100 * x + 1 / 2⌋ : ℤ) : ℚ) / 100

/-- Model of Python `str.strip()` with no argument: remove leading and trailing
whitespace characters. -/
def pyStrip (s : String) : String :=
  ⟨((s.data.dropWhile Char.isWhitespace).reverse.dropWhile Char.isWhitespace).reverse⟩

/-- A draft key: `(item_name, price)`, the key of `order_quantities`. -/
abbrev ItemKey := String × ℚ

/-- The in-memory draft `order_quantities`: an insertion-ordered dict from
`(item_name, price)` to a quantity, modelled as an association list. -/
abbrev Draft := List (ItemKey × ℕ)

/-- One row of `orders.csv` (columns written by `save_order_to_csv`). -/
structure LedgerRow where
  name : String
  item : String
  price : ℚ
  quantity : ℕ
  line_total : ℚ
  timestamp : String
deriving DecidableEq, Repr

/-- State of the backing store `ORDERS_FILE`. -/
inductive Store
  | missing
  | corrupt
  | file (rows : List LedgerRow)
deriving DecidableEq, Repr

/-- The rows built by the loop of `save_order_to_csv` (lines 49-63): one row
per draft entry with positive quantity, with
`line_total = round(price * qty, 2)` and the shared timestamp. -/
def orderRows (name ts : String) (order_quantities : Draft) : List LedgerRow :=
  order_quantities.filterMap fun e =>
    if e.2 ≤ 0 then none
    else some { name := name, item := e.1.1, price := e.1.2, quantity := e.2,
                line_total := pyRound2 (e.1.2 * (e.2 : ℚ)), timestamp := ts }

/-- Model of `save_order_to_csv` (lines 41-74): if no row has positive quantity the
function returns before touching the file; otherwise the new rows are appended
after the existing ones (or a fresh file is written).  `none` models the
uncaught `pd.read_csv` exception raised when the existing file is unreadable. -/
def save_order_to_csv (name ts : String) (order_quantities : Draft) (s : Store) :
    Option Store :=
  let rows := orderRows name ts order_quantities
  if rows = [] then some s
  else
    match s with
    | .missing => some (.file rows)
    | .corrupt => none
    | .file existing => some (.file (existing ++ rows))

/-- Model of `load_orders_dataframe` (lines 77-84): `none` when the file does not exist
and when reading raises (the exception is caught); the parsed rows otherwise. -/
def load_orders_dataframe : Store → Option (List LedgerRow)
  | .file rows => some rows
  | _ => none

/-- The record sequence the caller works with: a `None` result of
`load_orders_dataframe` is treated as "no orders" at the only call site
(lines 494-496), so the effective result of a load is the empty sequence. -/
def loadAll (s : Store) : List LedgerRow :=
  (load_orders_dataframe s).getD []

/-- Outcome of the submit button handler (lines 469-476). -/
inductive SubmitOutcome
  | nameWarning
  | emptyWarning
  | saved
deriving DecidableEq, Repr

/-- The submit handler (lines 469-476): a name that strips to empty is rejected
with a warning (the `ValidationError` of the spec) before anything is saved; an
empty draft is likewise rejected; otherwise the order is saved under the
stripped name. -/
def submit_order (name ts : String) (order_quantities : Draft) (s : Store) :
    SubmitOutcome × Option Store :=
  if pyStrip name = "" then (.nameWarning, some s)
  else if order_quantities = [] then (.emptyWarning, some s)
  else (.saved, save_order_to_csv (pyStrip name) ts order_quantities s)

/-- The error raised by a failed deletion (the `NotFoundError` of the spec,
realised as the pandas `KeyError` from `DataFrame.drop`). -/
inductive DeleteError
  | notFound
deriving DecidableEq, Repr

/-- Model of `df_orders.drop(label)` on a dataframe with default `RangeIndex 0..n-1`
(the index produced by `pd.read_csv`): removes the row with that label, or
raises `KeyError` when the label is not in the index. -/
def pdDrop (label : ℕ) (rows : List LedgerRow) : Except DeleteError (List LedgerRow) :=
  if label < rows.length then .ok (rows.take label ++ rows.drop (label + 1))
  else .error .notFound

/-- The deletion handler (lines 521-528): drop the selected row from the
loaded dataframe `df_orders` and rewrite the whole CSV; if the drop raises,
the write on the next line never runs and the store is left as it was. -/
def delete_order (selected : ℕ) (df_orders : List LedgerRow) (s : Store) :
    Store × Option DeleteError :=
  match pdDrop selected df_orders with
  | .ok remaining => (.file remaining, none)
  | .error e => (s, some e)

/-- Outcome of the "Mostra riepilogo ordini" handler (lines 494-499). -/
inductive ViewOutcome
  | noOrders
  | showTables (rows : List LedgerRow)
deriving DecidableEq, Repr

/-- The view handler (lines 494-499): a missing, unreadable or empty store is
surfaced as the informational "no orders" message and the session continues;
otherwise the tables are shown. -/
def show_orders (s : Store) : ViewOutcome :=
  match load_orders_dataframe s with
  | none => .noOrders
  | some rows => if rows = [] then .noOrders else .showTables rows

/-- One row of the per-product aggregate table (lines 530-535). -/
structure ItemAgg where
  item : String
  quantita : ℕ
  totale : ℚ
deriving DecidableEq, Repr

/-- Model of `df_orders.groupby("item").agg(quantita=("quantity","sum"),
totale=("line_total","sum"))` (lines 530-535): one output row per distinct
`item` value, with the group keys sorted ascending (pandas `groupby` default
`sort=True`); each group sums the quantities and the stored line totals of
every record with that item name, regardless of customer or price. -/
def groupby_item (rows : List LedgerRow) : List ItemAgg :=
  (((rows.map (·.item)).dedup).insertionSort (· ≤ ·)).map fun it =>
    { item := it
      quantita := ((rows.filter (fun r => r.item = it)).map (·.quantity)).sum
      totale := ((rows.filter (fun r => r.item = it)).map (·.line_total)).sum }

/-- Model of `agg["totale"].sum()` (line 538): the grand total over the aggregate. -/
def totale_complessivo (rows : List LedgerRow) : ℚ :=
  ((groupby_item rows).map (·.totale)).sum

/-- One line of the draft summary (lines 453-460). -/
structure DraftLine where
  item : String
  price : ℚ
  qty : ℕ
  lineTotal : ℚ
deriving DecidableEq, Repr

/-- The draft-summary loop (lines 453-460): one line per draft entry with
positive quantity, with `line_total = price * qty` (no rounding in the code;
the displayed strings format it to two decimals). -/
def summary_lines (order_quantities : Draft) : List DraftLine :=
  order_quantities.filterMap fun e =>
    if e.2 ≤ 0 then none
    else some { item := e.1.1, price := e.1.2, qty := e.2,
                lineTotal := e.1.2 * (e.2 : ℚ) }

/-- The running `total` of the same loop (lines 451-457). -/
def draft_total (order_quantities : Draft) : ℚ :=
  ((summary_lines order_quantities).map (·.lineTotal)).sum

/-- The distinct values of a list in first-seen order (the order the claim
about grouping refers to). -/
def firstSeen (l : List String) : List String :=
  l.foldl (fun acc x => if x ∈ acc then acc else acc ++ [x]) []

/-- Model of `order_quantities[(item_name, price)] += qty` on the `defaultdict(int)`
(line 437): increment an existing entry in place, or append a new one. -/
def addQty (d : Draft) (k : ItemKey) (q : ℕ) : Draft :=
  match d with
  | [] => [(k, q)]
  | (k', q') :: rest => if k' = k then (k', q' + q) :: rest else (k', q') :: addQty rest k q

/-- The form-reading loop (lines 420-437): fold over every category and item
of the menu, reading the quantity entered for that (category, item) widget,
and accumulate nonzero quantities into the draft keyed by `(item_name, price)`. -/
def buildDraft (menu : List (String × List (String × ℚ)))
    (inputs : String → String → ℕ) : Draft :=
  menu.foldl
    (fun d ci =>
      ci.2.foldl
        (fun d it =>
          let qty := inputs ci.1 it.1
          if qty ≠ 0 then addQty d (it.1, it.2) qty else d)
        d)
    []

/-- The hard-coded menu of `build_menu` (lines 87-398): category name to
ordered list of `(item_name, price)`, in declaration order.  Prices are the
exact decimal values of the Python float literals. -/
def build_menu : List (String × List (String × ℚ)) :=
  [("Aperitivo",
    [("Formula Gajardo (Apericena)", 15),
     ("Formula Norcino (Apericena)", 15),
     ("Formula Aperitamo (Aperitivo)", 12)]),
   ("Analcolici (non‑alcoholic)",
    [("Tamo Fruit (Mela, Arancia, Anguria)", 5),
     ("Hawaii (Fragola, Ananas)", 5),
     ("Esotic (Passion Fruit, Lime, Zucchero di canna, Ginger Beer)", 5),
     ("Virgin Mojito (Tonica, Lime, Zucchero di canna, Menta)", 5),
     ("Virgin Colada (Ananas, Cocco)", 5),
     ("Charlie Tample (Ginger Ale, Cranberry Juice)", 5)]),
   ("Spritz",
    [("Apertas (Aperol, Cedrata)", 6),
     ("Aperol Spritz", 6),
     ("Campari Spritz", 6),
     ("Calabro Spritz (Amaro del Capo Red Hot, Prosecco)", 7),
     ("Hugo (Liquore di Sambuco, Prosecco, Menta)", 6),
     ("Martini Royale (Martini Bianco, Lime, Prosecco)", 6),
     ("Melon Spritz (Midori, Prosecco)", 6),
     ("Passoa Spritz (Passoa, Prosecco)", 6),
     ("Violetta Spritz (Liquore alla Violetta, Prosecco)", 6)]),
   ("Negroni",
    [("Negroni", 8),
     ("Negroni Sbagliato", 8),
     ("Boulevardier", 8),
     ("Negroni Bianco", 8),
     ("Negroni al Cioccolato", 8),
     ("Americano", 8)]),
   ("Gin Tonic",
    [("Gin Tonic", 8),
     ("Gin Lemon", 8),
     ("Tanqueray Tonic", 10),
     ("Tanqueray No. Ten Tonic", 12),
     ("Malfy Pink Tonic", 12),
     ("Bombay Tonic", 12),
     ("Gin Mare Tonic", 12)]),
   ("Mule",
    [("Moscow Mule", 8),
     ("London Mule", 8),
     ("Mexican Mule", 8),
     ("Suffering Busterd", 8)]),
   ("Pestati",
    [("Mojito", 9),
     ("Caipiroska", 9),
     ("Caipiroska Fragola", 9),
     ("Caipiroska Frutti Rossi", 9),
     ("Caipiroska Passion Fruit", 9)]),
   ("Sour",
    [("Whiskey Sour", 8),
     ("Midori Sour", 8),
     ("Di Saronno Sour", 8),
     ("New York Sour", 8)]),
   ("Cocktail Pre‑Dinner",
    [("Morgana", 8),
     ("Sky Walker", 8),
     ("Paloma", 8),
     ("Tequila Sunrise", 8)]),
   ("Cocktail After‑Dinner",
    [("Mister Tamo", 8),
     ("Alexander", 8),
     ("Satan’s Whiskers", 8),
     ("Long Island Ice Tea", 8),
     ("Japanese Ice Tea", 8),
     ("Miami Ice Tea", 8),
     ("Pina Colada", 8)]),
   ("Tiki Cocktails",
    [("Jungle Birth", 10),
     ("Mister Funk", 10)]),
   ("Salty dishes (Brunch)",
    [("Avocado Toast", 10),
     ("Eggs Royal", 12),
     ("Club Sandwich Tacchino", 9),
     ("Club Sandwich Royal", 9),
     ("English Breakfast", 10),
     ("American Breakfast", 12),
     ("French Toast", 9),
     ("Caesar Salad (Brunch)", 12)]),
   ("Primi e Secondi (Brunch)",
    [("Tonnarello Cacio e Pepe", 11),
     ("Tonnarello Carbonara", 11),
     ("Mezza Manica all’Amatriciana", 11),
     ("Tonnarello Pomodoro e Basilico", 9),
     ("Tagliata di Petto di Pollo (Lime e Menta)", 13),
     ("Veggy Wrap", 9)]),
   ("Sweet brunch (Pancakes e Waffles)",
    [("Baby Pancakes", 5),
     ("Pancakes Cioccolato Bianco e Frutti di Bosco", 8),
     ("Pancakes Nutella e Banana", 7),
     ("Pancakes Nutella, Fragole e Panna", 8),
     ("Pancakes Pistacchio", 7),
     ("Pancakes Sciroppo Acero", 8),
     ("Waffle Crema e Frutti di Bosco", 8),
     ("Waffle Nutella e Fragola", 7),
     ("Waffle Pistacchio", 7),
     ("Waffle Sciroppo Acero", 7),
     ("Waffle Cioccolato Bianco e Frutti di Bosco", 8)]),
   ("Bio Zone",
    [("Centrifugato Depurante", 7),
     ("Centrifugato Antiossidante", 7),
     ("Centrifugato Digestiva", 7),
     ("Centrifugato Tonificante", 7),
     ("Centrifugato Rinfrescante", 7),
     ("Frullato fai da te", 6),
     ("Spremuta di Arance", 3.5),
     ("Spremuta di Pompelmo", 4)]),
   ("Caffetteria",
    [("Caffè Espresso", 2),
     ("Caffè Corretto", 2.5),
     ("Caffè Americano", 2),
     ("Caffè Shekerato", 3),
     ("Caffè e Latte", 1.8),
     ("Cappuccino", 2),
     ("Cappuccino Soya/Avena/Senza Lattosio", 2.5),
     ("Latte Macchiato", 1.8),
     ("Ginseng Piccolo", 2),
     ("Ginseng Grande", 2.5),
     ("Orzo Piccolo", 2),
     ("Orzo Grande", 2.5),
     ("Marocchino", 2.5)]),
   ("Caffè Special",
    [("Mister Tamo (espresso, Nutella, crema di latte, pistacchio)", 3.5),
     ("Pistacchioso", 3),
     ("Caramelloso", 3),
     ("Nocciolino", 3),
     ("Coccoloso", 3),
     ("Pannoso", 3),
     ("Marocchino Special", 3),
     ("Shekerato Special", 3.5)]),
   ("Cioccolate Calde",
    [("Cioccolata Calda al Latte", 3.5),
     ("Cioccolata Calda Fondente", 3.5),
     ("Cioccolata Calda con Panna", 4),
     ("Cioccolata Calda con Panna e Fragole", 5)]),
   ("Dolci – monoporzioni e torte",
    [("Tortino dal Cuore Caldo", 7),
     ("Monoporzione Cioccolampone", 6),
     ("Monoporzione Gianduiotto", 6),
     ("Caprese Croccante", 6),
     ("Tiramisù 2.0 Cioccolato e Caffè", 6),
     ("Monoporzione Nuvola", 6),
     ("Monoporzione Meringata", 6),
     ("Monoporzione Ambra", 6),
     ("Cheesecake Nutella (monoporzione)", 6),
     ("Cheesecake Frutti Rossi (monoporzione)", 6),
     ("Cheesecake Pistacchio (monoporzione)", 6),
     ("Cheesecake Caramello Salato (monoporzione)", 6),
     ("Eclair Cioccolato", 3.5),
     ("Torta Sacher artigianale", 5),
     ("Tiramisù Gluten/Lacto Free", 7),
     ("Tortina Vegan di Carote", 4),
     ("Brownies (anche gluten free)", 4),
     ("Muffin Gluten Free", 3.5),
     ("Torta della Nonna classica", 3.5),
     ("Crostata Marmellata artigianale", 3.5),
     ("Crostata Vegan – Albicocca e Avena", 3.5)]),
   ("Dolci – pancakes",
    [("Pancakes Bueno", 9),
     ("Pancakes Nutella e Banana", 7),
     ("Pancakes Cioccolato Bianco e Frutti Rossi", 8),
     ("Pancakes Sciroppo Acero", 8),
     ("Pancakes Nutella, Fragole e Panna", 8),
     ("Pancakes Pistacchio", 8)]),
   ("Dolci – waffle",
    [("Waffle Sciroppo Acero, Banana e muesli", 7),
     ("Waffle Nutella e Fragola", 8),
     ("Waffle Crema e Frutti Rossi", 8),
     ("Waffle Pistacchio", 8),
     ("Waffle Cioccolato Bianco e Frutti Rossi", 8)]),
   ("Dolci – muffin, donuts, biscotti",
    [("Muffin Vaniglia", 2.5),
     ("Muffin Albicocca", 2.5),
     ("Muffin Cioccolato", 2.5),
     ("Muffin Mirtillo", 2.5),
     ("Muffin Pistacchio", 2.5),
     ("Muffin Cioccolato Bianco", 2.5),
     ("Muffin Nutella Ferrero", 3),
     ("Muffin Oreo", 3),
     ("Donut Oreo", 2.5),
     ("Donut Cioccolato", 2.5),
     ("Donut Marshmallow", 2.5),
     ("Macaron (vari gusti)", 2.5),
     ("Pasticceria mignon (per pezzo)", 1.5),
     ("Mix Pasticceria mignon (5 pezzi)", 6),
     ("Pasticciotto Pugliese (crema o amarena)", 2),
     ("Cornetto Gluten Free", 2.7),
     ("Lieviti assortiti", 1.5),
     ("Biscotteria da the (per pezzo)", 0.8),
     ("Mix Biscotteria da the (5 pezzi)", 3.5),
     ("Biscotti Zenzero e Cannella", 1),
     ("Biscotti Mirtillo e Bacche di Goji", 1)]),
   ("Vini – bianchi",
    [("Calice Gewürztraminer", 6),
     ("Calice Kikè (Cantina Fina)", 6),
     ("Calice Ribolla Gialla", 5.5),
     ("Calice Sauvignon", 5.5),
     ("Calice Chardonnay", 5.5)]),
   ("Vini – rossi",
    [("Calice Shiraz", 6),
     ("Calice Primitivo", 5.5),
     ("Calice Chianti Classico", 5.5)]),
   ("Bollicine (Prosecco)",
    [("Calice Prosecco Cuvée", 5)]),
   ("Birre (bottiglia 33 cl)",
    [("Tennent’s", 4),
     ("Beck’s", 4),
     ("Menabrea", 4),
     ("Menabrea Rossa", 4),
     ("Messina Cristalli di Sale", 4),
     ("Ichnusa", 4),
     ("Ichnusa Non Filtrata", 4)]),
   ("Soft drinks",
    [("Coca‑cola (bottiglia vetro)", 3.5),
     ("Coca‑cola Zero (bottiglia vetro)", 3.5),
     ("Fanta (bottiglia vetro)", 3.5),
     ("Aranciata amara", 2.5),
     ("Schweppes Ginger Beer", 3.5),
     ("Schweppes Lemon", 3.5),
     ("Schweppes Soda", 3.5),
     ("Red Bull", 3.5),
     ("Chinotto (bottiglia vetro)", 3.5),
     ("Cedrata", 3.5),
     ("Thè freddo (PET)", 3),
     ("Thè freddo (bicchiere)", 2.5),
     ("Succo di frutta (vari gusti)", 3),
     ("Succo mirtillo", 3.5),
     ("Succo pesca e mango", 3.5),
     ("Succo melograno", 3.5)]),
   ("Rum (selezione)",
    [("Havana 7", 6),
     ("Legendario Elixir", 8),
     ("Barcelò", 8),
     ("Don Papa", 8),
     ("Zacapa 23", 9)]),
   ("Amari e Grappe",
    [("Jägermeister", 3.5),
     ("Lucano", 3.5),
     ("Montenegro", 3.5),
     ("Amaro del Capo", 3.5),
     ("Amaro del Capo Red Hot", 4.5),
     ("Brancamenta", 3.5),
     ("Fernet Branca", 3.5),
     ("Averna", 3.5),
     ("Unicum", 3.5),
     ("Grappa 3.0", 3.5),
     ("Grappa 3.0 barricata", 4.6),
     ("Grappa 903 barricata", 4.6)]),
   ("Whisky & Cognac",
    [("Jack Daniel’s", 5.8),
     ("Jim Beam", 5.8),
     ("Wild Turkey", 5.8),
     ("Cognac Hartell VS", 5.5)]),
   ("Spirits",
    [("Bitter Campari", 4.5),
     ("Stravecchio", 3.5),
     ("Vecchia Romagna", 3.5),
     ("Disaronno", 3.5),
     ("Elisir Gambrinus", 3.5),
     ("Limoncello", 3.5),
     ("Sambuca Molinari", 3.5)]),
   ("Tea & Infusions",
    [("English Breakfast (Black Tea)", 3.5),
     ("Earl Grey (Black Tea)", 3.5),
     ("Earl Grey Night (decaffeinated)", 3.5),
     ("Lemon (Black Tea)", 3.5),
     ("Winter Tea (Black Tea con Cannella e Chiodi di Garofano)", 3.5),
     ("Red Fruits (Black Tea con frutti rossi)", 3.5),
     ("China Green Tea", 3.5),
     ("Wood Flavour (Fruit Infusion)", 3.5),
     ("Blueberry Cherry (Fruit Infusion)", 3.5),
     ("Moonlight (Herbal Infusion al Finocchio)", 3.5),
     ("Golden Flowers (Herbal Infusion)", 3.5)])]

/-- A sample ledger record used as concrete input by the witnesses. -/
def rowCappuccino : LedgerRow :=
  { name := "Mario", item := "Cappuccino", price := 2, quantity := 2,
    line_total := 4, timestamp := "t" }

/-- A second sample ledger record used as concrete input by the witnesses. -/
def rowCornetto : LedgerRow :=
  { name := "Mario", item := "Cornetto", price := 3 / 2, quantity := 1,
    line_total := 3 / 2, timestamp := "t" }

/-- A record for Anna used by the grouping witnesses (scenario D). -/
def rowAnna : LedgerRow :=
  { name := "Anna", item := "Cappuccino", price := 2, quantity := 1,
    line_total := 2, timestamp := "t" }

/-- A record for Mario used by the grouping witnesses (scenario D). -/
def rowMarioCap : LedgerRow :=
  { name := "Mario", item := "Cappuccino", price := 2, quantity := 1,
    line_total := 2, timestamp := "t" }

/-- A two-record ledger whose first-seen item order differs from the
alphabetical order of the item names. -/
def c3rows : List LedgerRow :=
  [{ name := "Mario", item := "Cornetto", price := 3 / 2, quantity := 1,
     line_total := 3 / 2, timestamp := "t" },
   { name := "Anna", item := "Cappuccino", price := 2, quantity := 1,
     line_total := 2, timestamp := "t" }]

/-- Form inputs that order the duplicated menu item "Pancakes Sciroppo Acero"
(price 8.00) once under its sweet-brunch category and once under the
dessert-pancakes category, and nothing else. -/
def duplicateItemInputs (q1 q2 : ℕ) : String → String → ℕ := fun cat it =>
  if cat = "Sweet brunch (Pancakes e Waffles)" ∧ it = "Pancakes Sciroppo Acero" then q1
  else if cat = "Dolci – pancakes" ∧ it = "Pancakes Sciroppo Acero" then q2
  else 0

/-! ## Helper lemmas -/

/-- The row-building loop written as a map over the non-zero draft entries. -/
theorem orderRows_eq (name ts : String) (oq : Draft) :
    orderRows name ts oq = (oq.filter fun e => e.2 ≠ 0).map fun e =>
      { name := name, item := e.1.1, price := e.1.2, quantity := e.2,
        line_total := pyRound2 (e.1.2 * (e.2 : ℚ)), timestamp := ts } := by
  induction oq with
  | nil => rfl
  | cons e rest ih =>
    by_cases h : e.2 = 0 <;>
      simp [orderRows, List.filterMap_cons, List.filter_cons, h, Nat.le_zero] <;>
      simpa [orderRows] using ih

/-- In a list without duplicates, filtering for a member yields that single
element. -/
theorem filter_eq_of_nodup {α} [DecidableEq α] (l : List α) (hl : l.Nodup) (t : α)
    (ht : t ∈ l) : (l.filter fun x => x = t) = [t] := by
  induction l with
  | nil => cases ht
  | cons a l ih =>
    rcases List.nodup_cons.mp hl with ⟨ha, hl'⟩
    by_cases hat : a = t
    · subst hat
      have hnil : (l.filter fun x => x = a) = [] := by
        apply List.filter_eq_nil_iff.mpr
        intro b hb
        simp only [decide_eq_true_eq]
        rintro rfl
        exact ha hb
      simp [List.filter_cons, hnil]
    · have h : t ∈ l := by
        rcases List.mem_cons.mp ht with h | h
        · exact absurd h.symm hat
        · exact h
      simp [List.filter_cons, hat, ih hl' h]

/-- Half-up rounding to two decimals fixes every whole number of cents. -/
theorem roundHalfUp2_div100 (n : ℤ) : roundHalfUp2 ((n : ℚ) / 100) = (n : ℚ) / 100 := by
  have h : (100 : ℚ) * ((n : ℚ) / 100) = (n : ℚ) := by field_simp
  have hfloor : ⌊(n : ℚ) + 1 / 2⌋ = n := by
    rw [add_comm, Int.floor_add_int]
    norm_num [Int.floor_eq_iff]
  rw [roundHalfUp2, h, hfloor]

/-- Python rounding to two decimals fixes every whole number of cents. -/
theorem pyRound2_div100 (n : ℤ) : pyRound2 ((n : ℚ) / 100) = (n : ℚ) / 100 := by
  have h : (100 : ℚ) * ((n : ℚ) / 100) = (n : ℚ) := by field_simp
  have hfl : ⌊(n : ℚ)⌋ = n := Int.floor_intCast n
  have hfloor : ⌊(n : ℚ) + 1 / 2⌋ = n := by
    rw [add_comm, Int.floor_add_int]
    norm_num [Int.floor_eq_iff]
  have hne : (n : ℚ) - (n : ℚ) ≠ 1 / 2 := by norm_num
  simp only [pyRound2, h, hfl, hne, if_false, hfloor]

/-- A finite sum of whole-cent values is a whole-cent value. -/
theorem sum_div100 (L : List ℚ) (h : ∀ x ∈ L, ∃ n : ℤ, x = (n : ℚ) / 100) :
    ∃ m : ℤ, L.sum = (m : ℚ) / 100 := by
  induction L with
  | nil => exact ⟨0, by norm_num⟩
  | cons x L ih =>
    obtain ⟨n, hn⟩ := h x (List.mem_cons_self x L)
    obtain ⟨m, hm⟩ := ih fun y hy => h y (List.mem_cons_of_mem x hy)
    exact ⟨n + m, by push_cast [List.sum_cons, hn, hm]; ring⟩

/-! ## Claims -/

/-- C6: if the draft has no entry with quantity `> 0`, `save_order_to_csv`
returns before touching the file: no records, no empty batch, and the store
(also when no backing file exists yet) is exactly what it was. -/
theorem save_empty_draft_noop (name ts : String) (oq : Draft) (s : Store)
    (h : ∀ e ∈ oq, e.2 = 0) : save_order_to_csv name ts oq s = some s := by
  have hrows : orderRows name ts oq = [] :=
    List.filterMap_eq_nil_iff.mpr fun e he => by simp [Nat.le_zero, h e he]
  simp [save_order_to_csv, hrows]

/-- Witness for C6 at a concrete zero-quantity draft over a missing store. -/
theorem save_empty_draft_noop_witness :
    (∀ e ∈ [((("Caffè Espresso", (2 : ℚ)), 0) : ItemKey × ℕ)], e.2 = 0) ∧
      save_order_to_csv "Mario" "2025-12-01T10:00:00"
        [((("Caffè Espresso", (2 : ℚ)), 0) : ItemKey × ℕ)] .missing = some .missing := by
  have h : ∀ e ∈ [((("Caffè Espresso", (2 : ℚ)), 0) : ItemKey × ℕ)], e.2 = 0 := by
    intro e he
    simp only [List.mem_singleton] at he
    rw [he]
  exact ⟨h, save_empty_draft_noop _ _ _ _ h⟩

/-- C7: submitting with a customer name that is empty or whitespace-only is
rejected with the validation warning and the store is untouched. -/
theorem submit_blank_name_rejected (name ts : String) (oq : Draft) (s : Store)
    (h : pyStrip name = "") :
    submit_order name ts oq s = (.nameWarning, some s) := by
  simp [submit_order, h]

/-- Witness for C7 at a whitespace-only name. -/
theorem submit_blank_name_rejected_witness :
    pyStrip "   " = "" ∧
      submit_order "   " "2025-12-01T10:00:00"
        [((("Cappuccino", (2 : ℚ)), 1) : ItemKey × ℕ)] (.file []) =
        (.nameWarning, some (.file [])) :=
  ⟨by decide, submit_blank_name_rejected _ _ _ _ (by decide)⟩

/-- C8: loading degrades gracefully.  A missing backing store loads as no
records (not an error), an unreadable one is caught and also surfaced as the
informational "no orders" outcome, and for every store state the view handler
reaches a defined outcome, so the session continues. -/
theorem load_degrades_gracefully :
    load_orders_dataframe .missing = none ∧
    load_orders_dataframe .corrupt = none ∧
    loadAll .missing = [] ∧ loadAll .corrupt = [] ∧
    show_orders .missing = .noOrders ∧ show_orders .corrupt = .noOrders ∧
    ∀ s : Store, show_orders s = .noOrders ∨
      ∃ rows, rows ≠ [] ∧ show_orders s = .showTables rows := by
  refine ⟨rfl, rfl, rfl, rfl, rfl, rfl, fun s => ?_⟩
  match s with
  | .missing => exact Or.inl rfl
  | .corrupt => exact Or.inl rfl
  | .file rows =>
    by_cases h : rows = []
    · exact Or.inl (by simp [show_orders, load_orders_dataframe, h])
    · exact Or.inr ⟨rows, h, by simp [show_orders, load_orders_dataframe, h]⟩

/-- C2: dropping a position at or beyond the length of the loaded dataframe
raises the not-found error and the store is not rewritten. -/
theorem delete_out_of_range_fails (s : Store) (df_orders : List LedgerRow) (i : ℕ)
    (h : df_orders.length ≤ i) :
    delete_order i df_orders s = (s, some .notFound) := by
  simp [delete_order, pdDrop, Nat.not_lt.mpr h]

/-- Witness for C2: deleting position 1 from a one-row dataframe fails and
leaves the store unchanged. -/
theorem delete_out_of_range_fails_witness :
    [rowCappuccino].length ≤ 1 ∧
      delete_order 1 [rowCappuccino] (.file [rowCappuccino]) =
        (.file [rowCappuccino], some .notFound) :=
  ⟨by decide, delete_out_of_range_fails (.file [rowCappuccino]) [rowCappuccino] 1 (by decide)⟩

/-- C9: dropping a valid position removes exactly that record, rewrites the
whole store, shortens the sequence by one, and preserves every other record
in its original relative order. -/
theorem delete_in_range_removes_record (s : Store) (df_orders : List LedgerRow) (i : ℕ)
    (h : i < df_orders.length) :
    delete_order i df_orders s =
      (.file (df_orders.take i ++ df_orders.drop (i + 1)), none) ∧
    (df_orders.take i ++ df_orders.drop (i + 1)).length = df_orders.length - 1 ∧
    (∀ j, j < i → (df_orders.take i ++ df_orders.drop (i + 1))[j]? = df_orders[j]?) ∧
    (∀ j, i ≤ j → (df_orders.take i ++ df_orders.drop (i + 1))[j]? = df_orders[j + 1]?) := by
  refine ⟨by simp [delete_order, pdDrop, h], ?_, ?_, ?_⟩
  · simp only [List.length_append, List.length_take, List.length_drop]
    omega
  · intro j hj
    rw [List.getElem?_append_left (by simp [List.length_take]; omega),
      List.getElem?_take_of_lt hj]
  · intro j hj
    rw [List.getElem?_append_right (by simp [List.length_take]; omega),
      List.getElem?_drop]
    congr 1
    simp only [List.length_take]
    omega

/-- Witness for C9: deleting position 0 from a two-row dataframe rewrites the
store to hold exactly the remaining row. -/
theorem delete_in_range_removes_record_witness :
    0 < [rowCappuccino, rowCornetto].length ∧
      delete_order 0 [rowCappuccino, rowCornetto] (.file [rowCappuccino, rowCornetto]) =
        (.file ([rowCappuccino, rowCornetto].take 0 ++ [rowCappuccino, rowCornetto].drop 1),
          none) :=
  ⟨by decide,
    (delete_in_range_removes_record (.file [rowCappuccino, rowCornetto])
      [rowCappuccino, rowCornetto] 0 (by decide)).1⟩

/-- C1: on any non-corrupt store, saving a draft with at least one positive
quantity under a name that is non-empty after stripping succeeds, and the
records a subsequent load returns are the previously stored ones followed by
exactly one new record per non-zero draft entry, whose `item` and `price` are
the key of that entry, whose `quantity` is the quantity of that entry, and whose
`line_total` is `round(price * quantity, 2)`. -/
theorem append_then_load_appends_rows (s : Store) (name ts : String) (oq : Draft)
    (hs : s ≠ Store.corrupt) (hq : ∃ e ∈ oq, 0 < e.2) (hname : pyStrip name ≠ "") :
    ∃ s', save_order_to_csv name ts oq s = some s' ∧
      loadAll s' = loadAll s ++ (oq.filter fun e => e.2 ≠ 0).map (fun e =>
        { name := name, item := e.1.1, price := e.1.2, quantity := e.2,
          line_total := pyRound2 (e.1.2 * (e.2 : ℚ)), timestamp := ts }) := by
  obtain ⟨e, he, hpos⟩ := hq
  have hrows : orderRows name ts oq ≠ [] := by
    rw [orderRows_eq]
    intro hnil
    rcases List.map_eq_nil_iff.mp hnil with hfil
    have : e ∈ oq.filter fun e => e.2 ≠ 0 :=
      List.mem_filter.mpr ⟨he, by simpa using Nat.pos_iff_ne_zero.mp hpos⟩
    rw [hfil] at this
    cases this
  match s with
  | .corrupt => exact absurd rfl hs
  | .missing =>
    refine ⟨.file (orderRows name ts oq), ?_, ?_⟩
    · simp [save_order_to_csv, hrows]
    · simp [loadAll, load_orders_dataframe, orderRows_eq]
  | .file existing =>
    refine ⟨.file (existing ++ orderRows name ts oq), ?_, ?_⟩
    · simp [save_order_to_csv, hrows]
    · simp [loadAll, load_orders_dataframe, orderRows_eq]

/-- Witness for C1: a fresh store, a one-line draft with quantity 2. -/
theorem append_then_load_appends_rows_witness :
    (Store.missing ≠ Store.corrupt ∧
      (∃ e ∈ [((("Cappuccino", (2 : ℚ)), 2) : ItemKey × ℕ)], 0 < e.2) ∧
      pyStrip "Mario" ≠ "") ∧
    ∃ s', save_order_to_csv "Mario" "t" [((("Cappuccino", (2 : ℚ)), 2) : ItemKey × ℕ)]
        .missing = some s' ∧
      loadAll s' = loadAll .missing ++
        ([((("Cappuccino", (2 : ℚ)), 2) : ItemKey × ℕ)].filter fun e => e.2 ≠ 0).map (fun e =>
          { name := "Mario", item := e.1.1, price := e.1.2, quantity := e.2,
            line_total := pyRound2 (e.1.2 * (e.2 : ℚ)), timestamp := "t" }) :=
  ⟨⟨by decide, ⟨((("Cappuccino", (2 : ℚ)), 2) : ItemKey × ℕ), by decide, by decide⟩, by decide⟩,
    append_then_load_appends_rows .missing "Mario" "t" _ (by decide)
      ⟨((("Cappuccino", (2 : ℚ)), 2) : ItemKey × ℕ), by decide, by decide⟩ (by decide)⟩

/-- C4: when every price in the draft is a whole number of cents (true of
every catalog price), the total of each summary line equals the price times the
quantity rounded half-up to two decimals, the running total equals the sum of
the line totals and is already rounded to two decimals, and a draft with no
positive quantity yields no lines and total 0. -/
theorem summarize_draft_rounding (oq : Draft)
    (hp : ∀ e ∈ oq, ∃ n : ℤ, e.1.2 = (n : ℚ) / 100) :
    (∀ l ∈ summary_lines oq, l.lineTotal = roundHalfUp2 (l.price * (l.qty : ℚ))) ∧
    draft_total oq = ((summary_lines oq).map (·.lineTotal)).sum ∧
    draft_total oq = roundHalfUp2 (draft_total oq) ∧
    ((∀ e ∈ oq, e.2 = 0) → summary_lines oq = [] ∧ draft_total oq = 0) := by
  have hline : ∀ l ∈ summary_lines oq, ∃ n : ℤ, l.lineTotal = (n : ℚ) / 100 ∧
      l.lineTotal = l.price * (l.qty : ℚ) := by
    intro l hl
    obtain ⟨e, he, hfe⟩ := List.mem_filterMap.mp hl
    by_cases h : e.2 ≤ 0
    · simp [h] at hfe
    · simp only [h, if_false, Option.some.injEq] at hfe
      obtain ⟨n, hn⟩ := hp e he
      refine ⟨n * e.2, ?_, by rw [← hfe]⟩
      rw [← hfe]
      simp only [hn]
      push_cast
      ring
  refine ⟨?_, rfl, ?_, ?_⟩
  · intro l hl
    obtain ⟨n, hn, hform⟩ := hline l hl
    rw [← hform, hn, roundHalfUp2_div100]
  · obtain ⟨m, hm⟩ := sum_div100 ((summary_lines oq).map (·.lineTotal)) (by
      intro x hx
      obtain ⟨l, hl, hlx⟩ := List.mem_map.mp hx
      obtain ⟨n, hn, _⟩ := hline l hl
      exact ⟨n, by rw [← hlx, hn]⟩)
    rw [draft_total, hm, roundHalfUp2_div100]
  · intro hz
    have : summary_lines oq = [] :=
      List.filterMap_eq_nil_iff.mpr fun e he => by simp [Nat.le_zero, hz e he]
    exact ⟨this, by simp [draft_total, this]⟩

/-- Witness for C4: the draft with 2 cappuccinos at 2.00. -/
theorem summarize_draft_rounding_witness :
    (∀ e ∈ [((("Cappuccino", (2 : ℚ)), 2) : ItemKey × ℕ)], ∃ n : ℤ, e.1.2 = (n : ℚ) / 100) ∧
    ((∀ l ∈ summary_lines [((("Cappuccino", (2 : ℚ)), 2) : ItemKey × ℕ)],
        l.lineTotal = roundHalfUp2 (l.price * (l.qty : ℚ))) ∧
      draft_total [((("Cappuccino", (2 : ℚ)), 2) : ItemKey × ℕ)] =
        ((summary_lines [((("Cappuccino", (2 : ℚ)), 2) : ItemKey × ℕ)]).map (·.lineTotal)).sum ∧
      draft_total [((("Cappuccino", (2 : ℚ)), 2) : ItemKey × ℕ)] =
        roundHalfUp2 (draft_total [((("Cappuccino", (2 : ℚ)), 2) : ItemKey × ℕ)]) ∧
      ((∀ e ∈ [((("Cappuccino", (2 : ℚ)), 2) : ItemKey × ℕ)], e.2 = 0) →
        summary_lines [((("Cappuccino", (2 : ℚ)), 2) : ItemKey × ℕ)] = [] ∧
        draft_total [((("Cappuccino", (2 : ℚ)), 2) : ItemKey × ℕ)] = 0)) := by
  have hp : ∀ e ∈ [((("Cappuccino", (2 : ℚ)), 2) : ItemKey × ℕ)],
      ∃ n : ℤ, e.1.2 = (n : ℚ) / 100 := by
    intro e he
    simp only [List.mem_singleton] at he
    exact ⟨200, by rw [he]; norm_num⟩
  exact ⟨hp, summarize_draft_rounding _ hp⟩

/-- C3 counterexample: on a ledger whose records mention "Cornetto" first and
"Cappuccino" second, the aggregate lists the "Cappuccino" group first, so the
groups are not in first-seen order of the item name. -/
theorem groupby_not_first_seen_counterexample :
    (groupby_item c3rows).map (·.item) = ["Cappuccino", "Cornetto"] ∧
    firstSeen (c3rows.map (·.item)) = ["Cornetto", "Cappuccino"] := by
  have hle : ¬ ("Cornetto" : String) ≤ "Cappuccino" := by
    rw [String.le_iff_toList_le]; decide
  have hitems : c3rows.map (·.item) = ["Cornetto", "Cappuccino"] := by decide
  have hdedup : (["Cornetto", "Cappuccino"] : List String).dedup =
      ["Cornetto", "Cappuccino"] := by decide
  have hsort : (["Cornetto", "Cappuccino"] : List String).insertionSort (· ≤ ·) =
      ["Cappuccino", "Cornetto"] := by
    simp [List.insertionSort, List.orderedInsert, hle]
  refine ⟨?_, by decide⟩
  rw [groupby_item, hitems, hdedup, hsort]
  rfl

/-- C3 amended: the per-item groups produced by the aggregation appear in
ascending lexicographic order of the item name (pandas `groupby` sorts the
group keys), with exactly the distinct item names of the input as keys. -/
theorem groupby_sorted_by_item (rows : List LedgerRow) :
    ((groupby_item rows).map (·.item)).Sorted (· ≤ ·) ∧
    ((groupby_item rows).map (·.item)).Perm ((rows.map (·.item)).dedup) := by
  have hmap : (groupby_item rows).map (·.item) =
      ((rows.map (·.item)).dedup).insertionSort (· ≤ ·) := by
    simp [groupby_item, List.map_map, Function.comp_def]
  exact ⟨hmap ▸ List.sorted_insertionSort _ _, hmap ▸ List.perm_insertionSort _ _⟩

/-- C5: the aggregation groups records by item name only: for every item name
occurring in the records there is exactly one group row, its `quantita` is the
sum of the quantities of all records with that item (whatever their customer
or price), its `totale` is the sum of the stored line totals of those records
(not recomputed), and the grand total is the sum of the group totals. -/
theorem groupby_item_sums (rows : List LedgerRow) (t : String)
    (ht : t ∈ rows.map (·.item)) :
    ((groupby_item rows).filter fun a => a.item = t) =
      [{ item := t,
         quantita := ((rows.filter fun r => r.item = t).map (·.quantity)).sum,
         totale := ((rows.filter fun r => r.item = t).map (·.line_total)).sum }] ∧
    totale_complessivo rows = ((groupby_item rows).map (·.totale)).sum := by
  refine ⟨?_, rfl⟩
  have hkeys : t ∈ ((rows.map (·.item)).dedup).insertionSort (· ≤ ·) :=
    (List.mem_insertionSort _).mpr (List.mem_dedup.mpr ht)
  have hnodup : (((rows.map (·.item)).dedup).insertionSort (· ≤ ·)).Nodup :=
    (List.perm_insertionSort _ _).nodup_iff.mpr (List.nodup_dedup _)
  rw [groupby_item, List.filter_map]
  have hpred : ((fun a : ItemAgg => decide (a.item = t)) ∘ fun it =>
      ({ item := it
         quantita := ((rows.filter (fun r => r.item = it)).map (·.quantity)).sum
         totale := ((rows.filter (fun r => r.item = it)).map (·.line_total)).sum } :
        ItemAgg)) = fun k => decide (k = t) := rfl
  rw [hpred, filter_eq_of_nodup _ hnodup t hkeys]
  rfl

/-- Witness for C5 (scenario D): Anna and Mario each buy one Cappuccino at
2.00; both records land in the single "Cappuccino" group, whose quantity sums
to 2 and whose revenue sums to 4.00. -/
theorem groupby_item_sums_witness :
    ("Cappuccino" ∈ [rowAnna, rowMarioCap].map (·.item)) ∧
    ((([rowAnna, rowMarioCap].filter fun r => r.item = "Cappuccino").map
        (·.quantity)).sum = 2) ∧
    ((([rowAnna, rowMarioCap].filter fun r => r.item = "Cappuccino").map
        (·.line_total)).sum = 4) ∧
    (((groupby_item [rowAnna, rowMarioCap]).filter fun a => a.item = "Cappuccino") =
      [{ item := "Cappuccino",
         quantita := (([rowAnna, rowMarioCap].filter fun r =>
           r.item = "Cappuccino").map (·.quantity)).sum,
         totale := (([rowAnna, rowMarioCap].filter fun r =>
           r.item = "Cappuccino").map (·.line_total)).sum }] ∧
      totale_complessivo [rowAnna, rowMarioCap] =
        ((groupby_item [rowAnna, rowMarioCap]).map (·.totale)).sum) := by
  refine ⟨by decide, by decide, ?_, groupby_item_sums [rowAnna, rowMarioCap] "Cappuccino" (by decide)⟩
  have hfil : ([rowAnna, rowMarioCap].filter fun r => r.item = "Cappuccino") =
      [rowAnna, rowMarioCap] := by decide
  rw [hfil]
  show rowAnna.line_total + (rowMarioCap.line_total + 0) = 4
  norm_num [rowAnna, rowMarioCap]

/-- C10: the catalog lists "Pancakes Sciroppo Acero" at 8.00 in both the
sweet-brunch category and the dessert-pancakes category; because the draft is
keyed by `(item_name, price)` only, quantities entered under the two
categories merge into a single draft entry carrying their sum, and submitting
persists one ledger row with that summed quantity rather than one per
category. -/
theorem duplicate_menu_item_merged (q1 q2 : ℕ) (h1 : q1 ≠ 0) (h2 : q2 ≠ 0) :
    (∃ ci ∈ build_menu, ci.1 = "Sweet brunch (Pancakes e Waffles)" ∧
      ("Pancakes Sciroppo Acero", (8 : ℚ)) ∈ ci.2) ∧
    (∃ ci ∈ build_menu, ci.1 = "Dolci – pancakes" ∧
      ("Pancakes Sciroppo Acero", (8 : ℚ)) ∈ ci.2) ∧
    buildDraft build_menu (duplicateItemInputs q1 q2) =
      [(("Pancakes Sciroppo Acero", (8 : ℚ)), q1 + q2)] ∧
    save_order_to_csv "Mario" "t" (buildDraft build_menu (duplicateItemInputs q1 q2))
        .missing =
      some (.file [{ name := "Mario", item := "Pancakes Sciroppo Acero", price := 8,
                     quantity := q1 + q2,
                     line_total := pyRound2 (8 * ((q1 + q2 : ℕ) : ℚ)), timestamp := "t" }]) := by
  have hdraft : buildDraft build_menu (duplicateItemInputs q1 q2) =
      [(("Pancakes Sciroppo Acero", (8 : ℚ)), q1 + q2)] := by
    simp [buildDraft, build_menu, duplicateItemInputs, addQty, h1, h2]
  refine ⟨by decide, by decide, hdraft, ?_⟩
  rw [hdraft]
  have hne : orderRows "Mario" "t" [(("Pancakes Sciroppo Acero", (8 : ℚ)), q1 + q2)] =
      [{ name := "Mario", item := "Pancakes Sciroppo Acero", price := 8,
         quantity := q1 + q2, line_total := pyRound2 (8 * ((q1 + q2 : ℕ) : ℚ)),
         timestamp := "t" }] := by
    have hq : q1 + q2 ≠ 0 := by omega
    simp [orderRows, hq]
  simp [save_order_to_csv, hne]

/-- Witness for C10: one unit ordered under the sweet-brunch category and two
under the dessert category. -/
theorem duplicate_menu_item_merged_witness :
    ((1 : ℕ) ≠ 0 ∧ (2 : ℕ) ≠ 0) ∧
      buildDraft build_menu (duplicateItemInputs 1 2) =
        [(("Pancakes Sciroppo Acero", (8 : ℚ)), 1 + 2)] :=
  ⟨⟨by decide, by decide⟩, (duplicate_menu_item_merged 1 2 (by decide) (by decide)).2.2.1⟩

end OrderingApp
